import Mathlib

/-!
Shallow embedding of the workflow execution engine of this repository
(`backend/app/services/workflow_engine.py`, `backend/app/tools/base.py`,
`backend/app/tools/registry.py`, `backend/app/tools/builtin/data_tools.py`)
together with theorems settling the specification claims about it.

Python runtime values flowing through the engine (JSON-like data plus
Python `None`/`bool`/`int`/`float` distinctions) are modelled by the
inductive type `Value`.  Python dicts are modelled as insertion-ordered
association lists over string keys; `alistGet` is `dict.__getitem__` /
`in`-membership, `alistSet` is `dict.__setitem__`.  Database writes,
timestamps and the async plumbing of the engine are not part of any
claim and are omitted; everything the claims mention (statuses, traces,
node outputs, errors with code/message/details, cost counters) is kept.
-/

/-- Python/JSON runtime values.  `null` is Python `None`.  Floats carry an
opaque integer payload: no claim computes with floating point, the
constructor exists only so that `isinstance`-style type checks
(`BaseTool._check_type`) can distinguish the `float` runtime type. -/
inductive Value where
  | null : Value
  | bool : Bool → Value
  | int : Int → Value
  | float : Int → Value
  | str : String → Value
  | list : List Value → Value
  | dict : List (String × Value) → Value

/-- Python dicts with string keys, as insertion-ordered association lists. -/
abbrev Dict := List (String × Value)

/-- Model of `d.get(k)` / `k in d`: first binding of `k`, if any. -/
def alistGet {α : Type} : List (String × α) → String → Option α
  | [], _ => none
  | (k', v) :: rest, k => if k' = k then some v else alistGet rest k

/-- Model of `d[k] = v`: replace the existing binding in place, else append. -/
def alistSet {α : Type} : List (String × α) → String → α → List (String × α)
  | [], k, v => [(k, v)]
  | (k', v') :: rest, k, v =>
      if k' = k then (k', v) :: rest else (k', v') :: alistSet rest k v

/-- Model of `d.get(k, default)`. -/
def pyGetD (d : Dict) (k : String) (dflt : Value) : Value :=
  match alistGet d k with
  | some v => v
  | none => dflt

/-- Model of `d.get(k)` with Python default `None`. -/
def pyGet (d : Dict) (k : String) : Value :=
  pyGetD d k .null

/-- Model of `value is None`. -/
def Value.isNull : Value → Bool
  | .null => true
  | _ => false

/-- Python truthiness of a value, as used by `if summary.get("token_usage"):`. -/
def Value.pyTruthy : Value → Bool
  | .null => false
  | .bool b => b
  | .int n => n != 0
  | .float n => n != 0
  | .str s => !s.isEmpty
  | .list l => !l.isEmpty
  | .dict d => !d.isEmpty

/-- Model of `type(value).__name__`, used in `ToolInputInvalid` error details. -/
def Value.pyTypeName : Value → String
  | .null => "NoneType"
  | .bool _ => "bool"
  | .int _ => "int"
  | .float _ => "float"
  | .str _ => "str"
  | .list _ => "list"
  | .dict _ => "dict"

/-- Python `str.isdigit()`: nonempty and all digit characters. -/
def pyIsDigit (s : String) : Bool :=
  !s.data.isEmpty && s.data.all Char.isDigit

/-- Model of `int(key)` for an all-digit segment. -/
def pyToNat (s : String) : Nat :=
  s.data.foldl (fun n c => n * 10 + (c.toNat - 48)) 0

/-- Splitter for Python `path.split(".")` at the character level:
`"a.b"` gives `["a", "b"]`, `"a..b"` gives `["a", "", "b"]`. -/
def splitDotChars : List Char → List (List Char)
  | [] => [[]]
  | c :: rest =>
      let groups := splitDotChars rest
      if c = '.' then [] :: groups
      else
        match groups with
        | grp :: gs => (c :: grp) :: gs
        | [] => [[c]]

/-- Python `path.split(".")`. -/
def splitOnDot (s : String) : List String :=
  (splitDotChars s.data).map fun cs => String.mk cs

/-- Error codes of `app/core/errors.py` reachable from the embedded code. -/
inductive ErrorCode where
  | toolInputInvalid
  | mappingInvalid
  | pathNotFound
  | toolNotFound
  | executionFailed
  | internalError
  deriving DecidableEq, Repr

/-- Model of `WorkflowError` / `NodeTraceError`: standardized `(code, message, details)`
error tuple (PRD 7.2).  Messages keep the shape of the source f-strings with
the quote characters dropped. -/
structure WError where
  code : ErrorCode
  message : String
  details : List (String × Value) := []

/-- The `InputMapping` tagged union of `app/models/schemas.py`
(`ConstantMapping` | `FromNodeMapping`). -/
inductive Mapping where
  | constant : Value → Mapping
  | fromNode : (node_id : String) → (path : String) → Mapping

/-- Model of `MappingEvaluator._get_by_path`: walk a dot-path through nested
dicts/lists.  Returns `Value.null` both for an unresolvable segment and
for a stored Python `None`, exactly as the Python function returns `None`
in both situations. -/
def MappingEvaluator.getByPathKeys : Value → List String → Value
  | v, [] => v
  | v, key :: rest =>
      match v with
      | .dict d =>
          match alistGet d key with
          | some inner => MappingEvaluator.getByPathKeys inner rest
          | none => .null
      | .list l =>
          if pyIsDigit key then
            if pyToNat key < l.length then
              MappingEvaluator.getByPathKeys (l.getD (pyToNat key) .null) rest
            else .null
          else .null
      | _ => .null

/-- Model of `MappingEvaluator._get_by_path(data, path)`. -/
def MappingEvaluator.getByPath (data : Value) (path : String) : Value :=
  if path = "" then data
  else MappingEvaluator.getByPathKeys data (splitOnDot path)

/-- The `PATH_NOT_FOUND` error raised when the referenced node is absent
from `node_outputs`. -/
def pathNotFoundRefError (refNodeId currentNodeId key : String) : WError :=
  { code := .pathNotFound
    message := "Referenced node " ++ refNodeId ++ " not found or not executed yet"
    details :=
      [("current_node", .str currentNodeId),
       ("referenced_node", .str refNodeId),
       ("key", .str key)] }

/-- The `PATH_NOT_FOUND` error raised when the dot-path is unresolved in
the referenced node output (`available_keys` lists the top-level keys). -/
def pathNotFoundPathError (nodeOutput : Value) (path refNodeId currentNodeId key : String) :
    WError :=
  { code := .pathNotFound
    message := "Path " ++ path ++ " not found in node " ++ refNodeId ++ " output"
    details :=
      [("current_node", .str currentNodeId),
       ("referenced_node", .str refNodeId),
       ("path", .str path),
       ("key", .str key),
       ("available_keys",
         .list (match nodeOutput with
                | .dict d => d.map (fun kv => .str kv.1)
                | _ => []))] }

/-- Model of `MappingEvaluator._evaluate_from_node`: fail with `PATH_NOT_FOUND` when
the referenced node is absent from `node_outputs`, or when the dot-path
resolves to nothing / to a terminal `None`. -/
def MappingEvaluator.evaluateFromNode (nodeOutputs : Dict)
    (refNodeId path currentNodeId key : String) : Except WError Value :=
  match alistGet nodeOutputs refNodeId with
  | none => .error (pathNotFoundRefError refNodeId currentNodeId key)
  | some nodeOutput =>
      if (MappingEvaluator.getByPath nodeOutput path).isNull then
        .error (pathNotFoundPathError nodeOutput path refNodeId currentNodeId key)
      else .ok (MappingEvaluator.getByPath nodeOutput path)

/-- Model of `MappingEvaluator._evaluate_single`. -/
def MappingEvaluator.evaluateSingle (nodeOutputs : Dict) (m : Mapping)
    (currentNodeId key : String) : Except WError Value :=
  match m with
  | .constant v => .ok v
  | .fromNode refId path =>
      MappingEvaluator.evaluateFromNode nodeOutputs refId path currentNodeId key

/-- Model of `MappingEvaluator.evaluate`: build the concrete tool input dict,
key by key in declaration order, stopping at the first failing mapping. -/
def MappingEvaluator.evaluate (nodeOutputs : Dict)
    (inputMapping : List (String × Mapping)) (currentNodeId : String) :
    Except WError Dict :=
  match inputMapping with
  | [] => .ok []
  | (key, m) :: rest => do
      let value ← MappingEvaluator.evaluateSingle nodeOutputs m currentNodeId key
      let restResult ← MappingEvaluator.evaluate nodeOutputs rest currentNodeId
      .ok ((key, value) :: restResult)

/-- State-threaded form of `MappingEvaluator.evaluate`, mirroring that the
Python method reads `self.node_outputs` but could in principle have mutated
it: alongside the result it returns the `node_outputs` store as left behind
by the evaluation. -/
def MappingEvaluator.evaluateThreaded (nodeOutputs : Dict)
    (inputMapping : List (String × Mapping)) (currentNodeId : String) :
    Except WError Dict × Dict :=
  match inputMapping with
  | [] => (.ok [], nodeOutputs)
  | (key, m) :: rest =>
      match MappingEvaluator.evaluateSingle nodeOutputs m currentNodeId key with
      | .error e => (.error e, nodeOutputs)
      | .ok value =>
          match MappingEvaluator.evaluateThreaded nodeOutputs rest currentNodeId with
          | (.ok restResult, st) => (.ok ((key, value) :: restResult), st)
          | (.error e, st) => (.error e, st)

/-- Model of `ToolParameterType` of `app/models/schemas.py`. -/
inductive ToolParameterType where
  | string
  | integer
  | number
  | boolean
  | array
  | object
  deriving DecidableEq, Repr

/-- Model of `ToolParameterType.value`: the wire string of the enum member. -/
def ToolParameterType.wireName : ToolParameterType → String
  | .object => "object"
  | .array => "array"
  | .boolean => "boolean"
  | .number => "number"
  | .integer => "integer"
  | .string => "string"

/-- Model of `ToolParameter` of `app/models/schemas.py` (description field kept). -/
structure ToolParameter where
  name : String
  type : ToolParameterType
  description : String := ""
  required : Bool := true
  default : Value := .null

/-- Model of `BaseTool._check_type`: `isinstance(value, type_map[expected_type])`.
Python `bool` is a subtype of `int`, so a boolean satisfies the `int` check
of INTEGER and the `(int, float)` check of NUMBER; a plain int does not
satisfy the `bool` check of BOOLEAN. -/
def BaseTool.checkType (value : Value) (expected : ToolParameterType) : Bool :=
  match expected, value with
  | .string, .str _ => true
  | .integer, .int _ => true
  | .integer, .bool _ => true
  | .number, .int _ => true
  | .number, .bool _ => true
  | .number, .float _ => true
  | .boolean, .bool _ => true
  | .array, .list _ => true
  | .object, .dict _ => true
  | _, _ => false

/-- The `TOOL_INPUT_INVALID` error raised when a required parameter is
absent, naming the missing parameter. -/
def requiredInputError (toolId paramName : String) : WError :=
  { code := .toolInputInvalid
    message := "Required input " ++ paramName ++ " is missing"
    details := [("tool_id", .str toolId), ("param", .str paramName)] }

/-- The `TOOL_INPUT_INVALID` error raised when a present value does not
match the declared semantic type, with expected/actual type in the
details. -/
def invalidTypeError (toolId : String) (p : ToolParameter) (value : Value) : WError :=
  { code := .toolInputInvalid
    message := "Input " ++ p.name ++ " has invalid type. Expected " ++ p.type.wireName
    details :=
      [("tool_id", .str toolId),
       ("param", .str p.name),
       ("expected_type", .str p.type.wireName),
       ("actual_type", .str value.pyTypeName)] }

/-- One iteration of the `BaseTool.validate_inputs` loop for a single
declared parameter: treat an absent or `None` raw value as missing
(fail when required, substitute the declared default when optional),
then type-check any non-`None` value against the declared semantic type. -/
def BaseTool.validateParam (toolId : String) (p : ToolParameter) (inputs : Dict) :
    Except WError Value :=
  match
    (if (pyGet inputs p.name).isNull then
       if p.required then .error (requiredInputError toolId p.name)
       else .ok p.default
     else .ok (pyGet inputs p.name) : Except WError Value) with
  | .error e => .error e
  | .ok value =>
      if !value.isNull && !BaseTool.checkType value p.type then
        .error (invalidTypeError toolId p value)
      else .ok value

/-- Model of `BaseTool.validate_inputs`: walk the declared input schema in order,
raising on the first invalid parameter; the validated dict contains exactly
the declared parameters (extra raw keys are dropped). -/
def BaseTool.validateInputs (toolId : String) (schema : List ToolParameter)
    (inputs : Dict) : Except WError Dict :=
  match schema with
  | [] => .ok []
  | p :: rest => do
      let value ← BaseTool.validateParam toolId p inputs
      let restResult ← BaseTool.validateInputs toolId rest inputs
      .ok ((p.name, value) :: restResult)

/-- Model of `DataMapTool._get_by_path`: like the evaluator walk but a dict miss
stores `None` and keeps walking (`value.get(key)`), while a non-container
or a non-digit list segment returns `None` outright; both outcomes are the
same `Value.null`. -/
def DataMapTool.getByPathKeys : Value → List String → Value
  | v, [] => v
  | v, key :: rest =>
      match v with
      | .dict d => DataMapTool.getByPathKeys (pyGet d key) rest
      | .list l =>
          if pyIsDigit key then
            DataMapTool.getByPathKeys
              (if pyToNat key < l.length then l.getD (pyToNat key) .null else .null) rest
          else .null
      | _ => .null

/-- Model of `DataMapTool._get_by_path(data, path)`. -/
def DataMapTool.getByPath (data : Value) (path : String) : Value :=
  if path = "" then data
  else DataMapTool.getByPathKeys data (splitOnDot path)

/-- An unexpected Python exception escaping a tool, as classified by the
generic `except Exception` handler of `WorkflowEngine._execute_node`
(code EXECUTION_FAILED, exception class name in the details). -/
def execFailedError (exc : String) : WError :=
  { code := .executionFailed
    message := exc
    details := [("exception", .str exc)] }

/-- The `result[new_key] = self._get_by_path(data, path)` loop of
`DataMapTool.execute`; a non-string path makes `path.split` raise
`AttributeError`, surfacing as EXECUTION_FAILED. -/
def DataMapTool.mapEntries (data : Value) : List (String × Value) → Except WError Dict
  | [] => .ok []
  | (newKey, .str path) :: rest => do
      let restResult ← DataMapTool.mapEntries data rest
      .ok ((newKey, DataMapTool.getByPath data path) :: restResult)
  | (_, _) :: _ => .error (execFailedError "AttributeError")

/-- Model of `DataMapTool.execute`: rebuild `data` along the declared field mapping,
returning `{"result": ...}` and recording no token usage. -/
def DataMapTool.execute (inputs : Dict) : Except WError (Dict × Option Dict) :=
  let data := pyGetD inputs "data" (.dict [])
  let mapping := pyGetD inputs "mapping" (.dict [])
  match mapping with
  | .dict entries =>
      (DataMapTool.mapEntries data entries).map fun r => ([("result", .dict r)], none)
  | _ => .error (execFailedError "AttributeError")

/-- A registered tool (`BaseTool` instance): metadata, declared input
schema, and the `execute` behaviour.  `execute` returns the output dict
together with the token usage the tool wrote into `context["token_usage"]`
(absent for tools that perform no LLM call); a raised exception is a
classified `WError`. -/
structure BaseTool where
  tool_id : String
  version : String := "1.0.0"
  name : String := ""
  category : String := "general"
  input_schema : List ToolParameter := []
  execute : Dict → Except WError (Dict × Option Dict)

/-- Model of `BaseTool.run`: validate then execute — the only method the engine calls. -/
def BaseTool.run (t : BaseTool) (rawInputs : Dict) : Except WError (Dict × Option Dict) := do
  let validated ← BaseTool.validateInputs t.tool_id t.input_schema rawInputs
  t.execute validated

/-- Model of `ToolRegistry`: the latest-registered map and the per-version map. -/
structure ToolRegistry where
  tools : List (String × BaseTool) := []
  versioned_tools : List (String × List (String × BaseTool)) := []

/-- Model of `ToolRegistry.register`: reject an empty `tool_id` (`ValueError`),
else overwrite the latest pointer and add the version entry. -/
def ToolRegistry.register (r : ToolRegistry) (tool : BaseTool) :
    Except String ToolRegistry :=
  if tool.tool_id = "" then
    .error "Tool must have a tool_id"
  else
    let versions := (alistGet r.versioned_tools tool.tool_id).getD []
    .ok
      { tools := alistSet r.tools tool.tool_id tool
        versioned_tools :=
          alistSet r.versioned_tools tool.tool_id (alistSet versions tool.version tool) }

/-- The latest-version branch of `ToolRegistry.get`. -/
def ToolRegistry.getLatest (r : ToolRegistry) (toolId : String) : Except WError BaseTool :=
  match alistGet r.tools toolId with
  | some tool => .ok tool
  | none =>
      .error
        { code := .toolNotFound
          message := "Tool not found: " ++ toolId
          details := [("tool_id", .str toolId)] }

/-- Model of `ToolRegistry.get(tool_id, version=None)`: a truthy version string
selects the per-version map, a `None`/empty version the latest pointer;
a miss raises `ToolNotFound`. -/
def ToolRegistry.get (r : ToolRegistry) (toolId : String) (version : Option String) :
    Except WError BaseTool :=
  match version with
  | some v =>
      if v = "" then r.getLatest toolId
      else
        match alistGet ((alistGet r.versioned_tools toolId).getD []) v with
        | some tool => .ok tool
        | none =>
            .error
              { code := .toolNotFound
                message := "Tool not found: " ++ toolId ++ " v" ++ v
                details := [("tool_id", .str toolId), ("version", .str v)] }
  | none => r.getLatest toolId

/-- Model of `RunStatus` of `app/models/schemas.py`. -/
inductive RunStatus where
  | pending
  | running
  | success
  | failed
  deriving DecidableEq, Repr

/-- Model of `NodeTraceStatus` of `app/models/schemas.py` (SKIPPED is declared by the
enum but never assigned by the engine). -/
inductive NodeTraceStatus where
  | pending
  | running
  | success
  | failed
  | skipped
  deriving DecidableEq, Repr

/-- Model of `NodeTrace`: per-node execution record.  Timestamps are real-time
fields with no claim content and are omitted. -/
structure NodeTrace where
  node_id : String
  tool_id : String
  status : NodeTraceStatus
  input_summary : Dict := []
  output_summary : Dict := []
  error : Option WError := none

/-- Model of `RunCost` of `app/models/schemas.py`. -/
structure RunCost where
  tokens : Int := 0
  prompt_tokens : Int := 0
  completion_tokens : Int := 0
  deriving DecidableEq, Repr

/-- Model of `WorkflowNode` of `app/models/schemas.py`; the optional LLM prompt
config only parameterizes prompt-driven tools and is folded into the
tool behaviour here. -/
structure WorkflowNode where
  node_id : String
  tool_id : String
  version : String
  input_mapping : List (String × Mapping) := []

/-- Model of `FinalOutputMapping` of `app/models/schemas.py`. -/
structure FinalOutputMapping where
  node_id : String
  path : String

/-- Model of `WorkflowFinalOutput` (the JSON-schema half carries no behaviour). -/
structure WorkflowFinalOutput where
  mapping : List (String × FinalOutputMapping)

/-- A workflow as consumed by `WorkflowEngine.execute`. -/
structure Workflow where
  nodes : List WorkflowNode
  final_output : Option WorkflowFinalOutput := none

/-- The dict returned by `WorkflowEngine.execute`. -/
structure RunResult where
  status : RunStatus
  node_outputs : Dict
  final_output : Option Dict
  error : Option WError
  traces : List NodeTrace
  cost : RunCost

/-- Model of `WorkflowEngine._summarize_data` on one value (`max_length = 200`):
long strings are truncated with an ellipsis, lists/dicts become a
type-and-length tag, everything else passes through. -/
def WorkflowEngine.summarizeValue (v : Value) : Value :=
  match v with
  | .str s => if s.length > 200 then .str (s.take 200 ++ "...") else .str s
  | .list l => .str ("<list len=" ++ toString l.length ++ ">")
  | .dict d => .str ("<dict len=" ++ toString d.length ++ ">")
  | other => other

/-- Model of `WorkflowEngine._summarize_data`. -/
def WorkflowEngine.summarizeData (data : Dict) : Dict :=
  data.map fun kv => (kv.1, WorkflowEngine.summarizeValue kv.2)

/-- Model of `usage.get(key, 0)` followed by `cost_field += ...`: succeeds with an
integer only when `usage` is a dict whose entry is missing, an int, or a
bool (Python `+=` accepts a bool as 0/1); anything else raises at runtime. -/
def WorkflowEngine.usageField (usage : Value) (key : String) : Option Int :=
  match usage with
  | .dict d =>
      match alistGet d key with
      | none => some 0
      | some (.int n) => some n
      | some (.bool b) => some (if b then 1 else 0)
      | some _ => none
  | _ => none

/-- The token-accounting step of the `WorkflowEngine.execute` loop
(lines 280-284): if the trace recorded a truthy `token_usage` summary,
add its three counters in order; a malformed usage value raises midway,
leaving the counters updated up to the failing field (second component
`some exc` models the escaped exception). -/
def WorkflowEngine.accumulateCost (cost : RunCost) (outputSummary : Dict) :
    RunCost × Option String :=
  if (pyGet outputSummary "token_usage").pyTruthy then
    match WorkflowEngine.usageField (pyGet outputSummary "token_usage") "total_tokens" with
    | none => (cost, some "TypeError")
    | some t =>
        match WorkflowEngine.usageField (pyGet outputSummary "token_usage") "prompt_tokens" with
        | none => ({ cost with tokens := cost.tokens + t }, some "TypeError")
        | some p =>
            match WorkflowEngine.usageField
                (pyGet outputSummary "token_usage") "completion_tokens" with
            | none =>
                ({ cost with
                    tokens := cost.tokens + t
                    prompt_tokens := cost.prompt_tokens + p }, some "TypeError")
            | some q =>
                ({ cost with
                    tokens := cost.tokens + t
                    prompt_tokens := cost.prompt_tokens + p
                    completion_tokens := cost.completion_tokens + q }, none)
  else (cost, none)

/-- The FAILED trace built by the two `except` arms of
`WorkflowEngine._execute_node`. -/
def WorkflowEngine.failTrace (node : WorkflowNode) (e : WError) : NodeTrace :=
  { node_id := node.node_id
    tool_id := node.tool_id
    status := .failed
    error := some e }

/-- Model of `WorkflowEngine._execute_node`: look up the tool, evaluate the input
mapping against the outputs accumulated so far, run the tool; on success
store the output under the node id and record summaries (plus any token
usage the tool wrote into the context); on a classified error return a
FAILED trace and leave `node_outputs` untouched. -/
def WorkflowEngine.executeNode (registry : ToolRegistry) (nodeOutputs : Dict)
    (node : WorkflowNode) : NodeTrace × Dict :=
  match registry.get node.tool_id (some node.version) with
  | .error e => (WorkflowEngine.failTrace node e, nodeOutputs)
  | .ok tool =>
      match MappingEvaluator.evaluate nodeOutputs node.input_mapping node.node_id with
      | .error e => (WorkflowEngine.failTrace node e, nodeOutputs)
      | .ok actualInputs =>
          match tool.run actualInputs with
          | .error e => (WorkflowEngine.failTrace node e, nodeOutputs)
          | .ok (output, usage) =>
              let summary0 := WorkflowEngine.summarizeData output
              let summary :=
                match usage with
                | some u => alistSet summary0 "token_usage" (.dict u)
                | none => summary0
              ({ node_id := node.node_id
                 tool_id := node.tool_id
                 status := .success
                 input_summary := WorkflowEngine.summarizeData actualInputs
                 output_summary := summary
                 error := none },
               alistSet nodeOutputs node.node_id (.dict output))

/-- Model of `WorkflowEngine._map_final_output`: for each final-output key whose
referenced node has an output, extract the dot-path value (possibly
`None`) and store it; keys whose referenced node is absent are skipped. -/
def WorkflowEngine.mapFinalOutput (config : List (String × FinalOutputMapping))
    (nodeOutputs : Dict) : Dict :=
  match config with
  | [] => []
  | (key, m) :: rest =>
      match alistGet nodeOutputs m.node_id with
      | some nodeOutput =>
          (key, MappingEvaluator.getByPath nodeOutput m.path) ::
            WorkflowEngine.mapFinalOutput rest nodeOutputs
      | none => WorkflowEngine.mapFinalOutput rest nodeOutputs

/-- The per-node loop of `WorkflowEngine.execute` with its accumulators:
append each attempted node trace; return FAILED with the failing node
error the moment a trace is FAILED (fail-fast, PRD 7.1); on success
accumulate token usage (an exception there is caught by the engine
outer handler as INTERNAL_ERROR); after the last node apply the
final-output mapping and return SUCCESS. -/
def WorkflowEngine.executeLoop (registry : ToolRegistry)
    (finalOutput : Option WorkflowFinalOutput) :
    List WorkflowNode → Dict → List NodeTrace → RunCost → RunResult
  | [], nodeOutputs, traces, cost =>
      { status := .success
        node_outputs := nodeOutputs
        final_output :=
          match finalOutput with
          | some cfg => some (WorkflowEngine.mapFinalOutput cfg.mapping nodeOutputs)
          | none => none
        error := none
        traces := traces
        cost := cost }
  | node :: rest, nodeOutputs, traces, cost =>
      let step := WorkflowEngine.executeNode registry nodeOutputs node
      let traces' := traces ++ [step.1]
      if step.1.status = .failed then
        { status := .failed
          node_outputs := step.2
          final_output := none
          error := step.1.error
          traces := traces'
          cost := cost }
      else
        match WorkflowEngine.accumulateCost cost step.1.output_summary with
        | (cost', none) =>
            WorkflowEngine.executeLoop registry finalOutput rest step.2 traces' cost'
        | (cost', some exc) =>
            { status := .failed
              node_outputs := step.2
              final_output := none
              error := some
                { code := .internalError
                  message := exc
                  details := [("exception", .str exc)] }
              traces := traces'
              cost := cost' }

/-- Model of `WorkflowEngine.execute(run_id, workflow)`: run the nodes in order from
an empty run context. -/
def WorkflowEngine.execute (registry : ToolRegistry) (workflow : Workflow) : RunResult :=
  WorkflowEngine.executeLoop registry workflow.final_output workflow.nodes [] [] {}

/-- A successfully completed prefix of a run: executes the given nodes in
order from the given accumulators, requiring every trace to be SUCCESS and
every cost-accumulation step to return normally; yields the accumulated
outputs, traces and cost. -/
def WorkflowEngine.runAllNodes (registry : ToolRegistry) :
    List WorkflowNode → Dict → List NodeTrace → RunCost →
    Option (Dict × List NodeTrace × RunCost)
  | [], nodeOutputs, traces, cost => some (nodeOutputs, traces, cost)
  | node :: rest, nodeOutputs, traces, cost =>
      let step := WorkflowEngine.executeNode registry nodeOutputs node
      if step.1.status = .success then
        match WorkflowEngine.accumulateCost cost step.1.output_summary with
        | (cost', none) =>
            WorkflowEngine.runAllNodes registry rest step.2 (traces ++ [step.1]) cost'
        | (_, some _) => none
      else none

/-- Model of `DataMapTool` of `app/tools/builtin/data_tools.py`: id `data.map`,
version `1.0.0`, required object parameters `data` and `mapping`. -/
def dataMapTool : BaseTool :=
  { tool_id := "data.map"
    version := "1.0.0"
    name := "Data Mapper"
    category := "data"
    input_schema :=
      [{ name := "data", type := .object, required := true },
       { name := "mapping", type := .object, required := true }]
    execute := DataMapTool.execute }

/-- The registry with the builtin `data.map` tool registered. -/
def builtinRegistry : ToolRegistry :=
  match ToolRegistry.register {} dataMapTool with
  | .ok r => r
  | .error _ => {}

/-- Node n1 of the end-to-end scenario claim: `data.map` with input
mapping `{"x": Constant(1)}`. -/
def nodeC5n1 : WorkflowNode :=
  { node_id := "n1"
    tool_id := "data.map"
    version := "1.0.0"
    input_mapping := [("x", .constant (.int 1))] }

/-- Node n2 of the end-to-end scenario claim: `data.map` with input
mapping `{"y": FromNode(n1, "result.x")}`. -/
def nodeC5n2 : WorkflowNode :=
  { node_id := "n2"
    tool_id := "data.map"
    version := "1.0.0"
    input_mapping := [("y", .fromNode "n1" "result.x")] }

/-- The two-node workflow of the end-to-end scenario claim. -/
def workflowC5 : Workflow :=
  { nodes := [nodeC5n1, nodeC5n2] }

/-- The token-usage dict `{total:10, prompt:6, completion:4}` of the cost
accumulation claim, under the wire keys the engine reads. -/
def usageTenSixFour : Value :=
  .dict [("total_tokens", .int 10), ("prompt_tokens", .int 6), ("completion_tokens", .int 4)]

/-- Test fixture: a prompt-driven-style tool that records the token usage
`{total:10, prompt:6, completion:4}` into the context on every call. -/
def usageFixtureTool : BaseTool :=
  { tool_id := "llm.fixture"
    version := "1.0.0"
    execute := fun _ =>
      .ok ([("result", .str "ok")],
           some [("total_tokens", .int 10), ("prompt_tokens", .int 6),
                 ("completion_tokens", .int 4)]) }

/-- The registry with only the usage fixture tool registered. -/
def usageRegistry : ToolRegistry :=
  match ToolRegistry.register {} usageFixtureTool with
  | .ok r => r
  | .error _ => {}

/-- A node invoking the usage fixture tool. -/
def usageNode (id : String) : WorkflowNode :=
  { node_id := id, tool_id := "llm.fixture", version := "1.0.0", input_mapping := [] }

/-- Registry claim fixture: tool id `x`, version `1.0`. -/
def toolXv1 : BaseTool :=
  { tool_id := "x", version := "1.0", name := "x one", execute := fun _ => .ok ([], none) }

/-- Registry claim fixture: tool id `x`, version `2.0`. -/
def toolXv2 : BaseTool :=
  { tool_id := "x", version := "2.0", name := "x two", execute := fun _ => .ok ([], none) }

theorem evaluateThreaded_state (nodeOutputs : Dict)
    (im : List (String × Mapping)) (cid : String) :
    (MappingEvaluator.evaluateThreaded nodeOutputs im cid).2 = nodeOutputs := by
  induction im with
  | nil => rfl
  | cons kv rest ih =>
      obtain ⟨key, m⟩ := kv
      simp only [MappingEvaluator.evaluateThreaded]
      cases MappingEvaluator.evaluateSingle nodeOutputs m cid key with
      | error e => rfl
      | ok v =>
          simp only
          cases h : MappingEvaluator.evaluateThreaded nodeOutputs rest cid with
          | mk fst snd =>
              have hsnd : snd = nodeOutputs := by
                have hx := ih
                rw [h] at hx
                exact hx
              cases fst with
              | error e => exact hsnd
              | ok r => exact hsnd

theorem evaluateThreaded_fst (nodeOutputs : Dict)
    (im : List (String × Mapping)) (cid : String) :
    (MappingEvaluator.evaluateThreaded nodeOutputs im cid).1 =
      MappingEvaluator.evaluate nodeOutputs im cid := by
  induction im with
  | nil => rfl
  | cons kv rest ih =>
      obtain ⟨key, m⟩ := kv
      simp only [MappingEvaluator.evaluateThreaded, MappingEvaluator.evaluate]
      cases MappingEvaluator.evaluateSingle nodeOutputs m cid key with
      | error e => rfl
      | ok v =>
          simp only [Except.bind]
          cases h : MappingEvaluator.evaluateThreaded nodeOutputs rest cid with
          | mk fst snd =>
              have := ih
              rw [h] at this
              cases fst with
              | error e =>
                  rw [← this]
                  rfl
              | ok r =>
                  rw [← this]
                  rfl

theorem executeNode_failed_outputs (registry : ToolRegistry) (st : Dict)
    (node : WorkflowNode)
    (h : (WorkflowEngine.executeNode registry st node).1.status = .failed) :
    (WorkflowEngine.executeNode registry st node).2 = st := by
  revert h
  unfold WorkflowEngine.executeNode
  split
  · intro _; rfl
  · split
    · intro _; rfl
    · split
      · intro _; rfl
      · intro h
        exact NodeTraceStatus.noConfusion h

theorem runAllNodes_traces_length (registry : ToolRegistry) :
    ∀ (ns : List WorkflowNode) (st : Dict) (trs : List NodeTrace) (cost : RunCost)
      (st' : Dict) (trs' : List NodeTrace) (cost' : RunCost),
      WorkflowEngine.runAllNodes registry ns st trs cost = some (st', trs', cost') →
      trs'.length = trs.length + ns.length := by
  intro ns
  induction ns with
  | nil =>
      intro st trs cost st' trs' cost' h
      simp only [WorkflowEngine.runAllNodes, Option.some.injEq, Prod.mk.injEq] at h
      obtain ⟨-, h2, -⟩ := h
      simp [← h2]
  | cons node rest ih =>
      intro st trs cost st' trs' cost' h
      simp only [WorkflowEngine.runAllNodes] at h
      split at h
      · split at h
        · have := ih _ _ _ _ _ _ h
          simp only [List.length_append, List.length_cons, List.length_nil] at this ⊢
          omega
        · exact absurd h (by simp)
      · exact absurd h (by simp)

theorem executeLoop_of_runAllNodes (registry : ToolRegistry)
    (fo : Option WorkflowFinalOutput) :
    ∀ (ns : List WorkflowNode) (st : Dict) (trs : List NodeTrace) (cost : RunCost)
      (st' : Dict) (trs' : List NodeTrace) (cost' : RunCost),
      WorkflowEngine.runAllNodes registry ns st trs cost = some (st', trs', cost') →
      WorkflowEngine.executeLoop registry fo ns st trs cost =
        { status := .success
          node_outputs := st'
          final_output :=
            match fo with
            | some cfg => some (WorkflowEngine.mapFinalOutput cfg.mapping st')
            | none => none
          error := none
          traces := trs'
          cost := cost' } := by
  intro ns
  induction ns with
  | nil =>
      intro st trs cost st' trs' cost' h
      simp only [WorkflowEngine.runAllNodes, Option.some.injEq, Prod.mk.injEq] at h
      obtain ⟨h1, h2, h3⟩ := h
      subst h1; subst h2; subst h3
      rfl
  | cons node rest ih =>
      intro st trs cost st' trs' cost' h
      simp only [WorkflowEngine.runAllNodes] at h
      split at h
      · rename_i hsucc
        split at h
        · rename_i cost1 hacc
          have step := ih _ _ _ _ _ _ h
          simp only [WorkflowEngine.executeLoop]
          rw [if_neg (by rw [hsucc]; simp)]
          rw [hacc]
          exact step
        · exact absurd h (by simp)
      · exact absurd h (by simp)

theorem executeLoop_fail_fast (registry : ToolRegistry)
    (fo : Option WorkflowFinalOutput) :
    ∀ (ns : List WorkflowNode) (node : WorkflowNode) (rest : List WorkflowNode)
      (st0 : Dict) (trs0 : List NodeTrace) (cost0 : RunCost)
      (st : Dict) (trs : List NodeTrace) (cost : RunCost),
      WorkflowEngine.runAllNodes registry ns st0 trs0 cost0 = some (st, trs, cost) →
      (WorkflowEngine.executeNode registry st node).1.status = .failed →
      WorkflowEngine.executeLoop registry fo (ns ++ node :: rest) st0 trs0 cost0 =
        { status := .failed
          node_outputs := st
          final_output := none
          error := (WorkflowEngine.executeNode registry st node).1.error
          traces := trs ++ [(WorkflowEngine.executeNode registry st node).1]
          cost := cost } := by
  intro ns
  induction ns with
  | nil =>
      intro node rest st0 trs0 cost0 st trs cost h hfail
      simp only [WorkflowEngine.runAllNodes, Option.some.injEq, Prod.mk.injEq] at h
      obtain ⟨h1, h2, h3⟩ := h
      subst h1; subst h2; subst h3
      simp only [List.nil_append, WorkflowEngine.executeLoop]
      rw [if_pos hfail, executeNode_failed_outputs _ _ _ hfail]
  | cons first rest0 ih =>
      intro node rest st0 trs0 cost0 st trs cost h hfail
      simp only [WorkflowEngine.runAllNodes] at h
      split at h
      · rename_i hsucc
        split at h
        · rename_i cost1 hacc
          have step := ih node rest _ _ _ _ _ _ h hfail
          simp only [List.cons_append, WorkflowEngine.executeLoop]
          rw [if_neg (by rw [hsucc]; simp)]
          rw [hacc]
          exact step
        · exact absurd h (by simp)
      · exact absurd h (by simp)

/-- C1 — Fail-fast: for a workflow `ns1 ++ node :: ns2` executed by
`WorkflowEngine.execute`, if the nodes of `ns1` all succeed (accumulating
outputs `st`, traces `trs` and cost `cost`) and `node` then produces a
FAILED trace, the run result is FAILED carrying exactly the failing node
trace error, `final_output` is absent, the traces are exactly the
successful prefix traces plus the failing trace (so none of the nodes of
`ns2` has a trace), and `node_outputs` is exactly `st`, the outputs of the
successful prefix, with nothing contributed by the failing node. -/
theorem C1_fail_fast (registry : ToolRegistry) (cfg : Option WorkflowFinalOutput)
    (ns1 : List WorkflowNode) (node : WorkflowNode) (ns2 : List WorkflowNode)
    (st : Dict) (trs : List NodeTrace) (cost : RunCost)
    (hpre : WorkflowEngine.runAllNodes registry ns1 [] [] {} = some (st, trs, cost))
    (hfail : (WorkflowEngine.executeNode registry st node).1.status = .failed) :
    WorkflowEngine.execute registry { nodes := ns1 ++ node :: ns2, final_output := cfg } =
      { status := .failed
        node_outputs := st
        final_output := none
        error := (WorkflowEngine.executeNode registry st node).1.error
        traces := trs ++ [(WorkflowEngine.executeNode registry st node).1]
        cost := cost }
    ∧ (trs ++ [(WorkflowEngine.executeNode registry st node).1]).length = ns1.length + 1 := by
  constructor
  · exact executeLoop_fail_fast registry cfg ns1 node ns2 [] [] {} st trs cost hpre hfail
  · have := runAllNodes_traces_length registry ns1 [] [] {} st trs cost hpre
    simp [this]

/-- Witness for C1 at a concrete run: with an empty registry the first
node fails with `ToolNotFound`, the run is FAILED, the second node is
never traced and `node_outputs` stays empty. -/
theorem C1_fail_fast_witness :
    WorkflowEngine.runAllNodes ({} : ToolRegistry) [] [] [] {} = some ([], [], {})
  ∧ (WorkflowEngine.executeNode {} []
       { node_id := "n1", tool_id := "t", version := "1.0", input_mapping := [] }).1.status = .failed
  ∧ WorkflowEngine.execute {}
      { nodes :=
          [{ node_id := "n1", tool_id := "t", version := "1.0", input_mapping := [] },
           { node_id := "n2", tool_id := "t", version := "1.0", input_mapping := [] }]
        final_output := none } =
      { status := .failed
        node_outputs := []
        final_output := none
        error := (WorkflowEngine.executeNode {} []
            { node_id := "n1", tool_id := "t", version := "1.0", input_mapping := [] }).1.error
        traces := [(WorkflowEngine.executeNode {} []
            { node_id := "n1", tool_id := "t", version := "1.0", input_mapping := [] }).1]
        cost := {} } :=
  ⟨rfl, rfl,
    (C1_fail_fast {} none []
      { node_id := "n1", tool_id := "t", version := "1.0", input_mapping := [] }
      [{ node_id := "n2", tool_id := "t", version := "1.0", input_mapping := [] }]
      [] [] {} rfl rfl).1⟩

/-- C3 — `FromNode` evaluation is a hard failure: if the referenced node id
is absent from the accumulated `node_outputs`, or the dot-path resolves to
nothing (in this code a missing path and a stored terminal `None` are the
same `None` result of `_get_by_path`), evaluation raises `PATH_NOT_FOUND`;
whenever it returns a value, that value is the non-null resolved path
value, never a null or substituted default. -/
theorem C3_from_node_hard_failure (nodeOutputs : Dict)
    (refId path currentId key : String) :
    (alistGet nodeOutputs refId = none →
      ∃ e, MappingEvaluator.evaluateFromNode nodeOutputs refId path currentId key =
          .error e ∧ e.code = .pathNotFound)
  ∧ (∀ nodeOutput, alistGet nodeOutputs refId = some nodeOutput →
      (MappingEvaluator.getByPath nodeOutput path).isNull = true →
      ∃ e, MappingEvaluator.evaluateFromNode nodeOutputs refId path currentId key =
          .error e ∧ e.code = .pathNotFound)
  ∧ (∀ v, MappingEvaluator.evaluateFromNode nodeOutputs refId path currentId key = .ok v →
      v.isNull = false
      ∧ ∃ nodeOutput, alistGet nodeOutputs refId = some nodeOutput
          ∧ MappingEvaluator.getByPath nodeOutput path = v) := by
  refine ⟨?_, ?_, ?_⟩
  · intro habsent
    refine ⟨pathNotFoundRefError refId currentId key, ?_, rfl⟩
    unfold MappingEvaluator.evaluateFromNode
    rw [habsent]
  · intro nodeOutput hpresent hnull
    refine ⟨pathNotFoundPathError nodeOutput path refId currentId key, ?_, rfl⟩
    unfold MappingEvaluator.evaluateFromNode
    rw [hpresent]
    simp [hnull]
  · intro v hok
    unfold MappingEvaluator.evaluateFromNode at hok
    cases hget : alistGet nodeOutputs refId with
    | none => rw [hget] at hok; exact absurd hok (by simp)
    | some nodeOutput =>
        rw [hget] at hok
        by_cases hnull : (MappingEvaluator.getByPath nodeOutput path).isNull = true
        · simp [hnull] at hok
        · simp [hnull] at hok
          refine ⟨?_, nodeOutput, rfl, hok⟩
          rw [← hok]
          simpa using hnull

/-- Witness for C3: a reference to a node absent from empty outputs, and a
missing path in a present node output, both fail `PATH_NOT_FOUND`. -/
theorem C3_from_node_hard_failure_witness :
    (∃ e, MappingEvaluator.evaluateFromNode [] "n1" "a" "n2" "k" =
        .error e ∧ e.code = .pathNotFound)
  ∧ (∃ e, MappingEvaluator.evaluateFromNode
        [("n1", .dict [("a", .int 1)])] "n1" "missing.x" "n2" "k" =
        .error e ∧ e.code = .pathNotFound) :=
  ⟨(C3_from_node_hard_failure [] "n1" "a" "n2" "k").1 rfl,
   (C3_from_node_hard_failure [("n1", .dict [("a", .int 1)])] "n1" "missing.x" "n2" "k").2.1
     (.dict [("a", .int 1)]) rfl rfl⟩

/-- C4 — Dot-path resolution: `meta.chars` on `{"meta":{"chars":42}}` gives
42; `items.0.name` on `{"items":[{"name":"a"}]}` gives "a" (the all-digit
segment `0` indexes the list, and the same segment performs key lookup when
the container is a dict, as the last two conjuncts show on `{"0": 7}` vs
`[7]`); `missing.x` on `{"a":1}` fails with `PATH_NOT_FOUND`. -/
theorem C4_dot_path_resolution :
    MappingEvaluator.getByPath
        (.dict [("meta", .dict [("chars", .int 42)])]) "meta.chars" = .int 42
  ∧ MappingEvaluator.getByPath
        (.dict [("items", .list [.dict [("name", .str "a")]])]) "items.0.name" = .str "a"
  ∧ (∃ e, MappingEvaluator.evaluateFromNode
        [("src", .dict [("a", .int 1)])] "src" "missing.x" "cur" "k" =
        .error e ∧ e.code = .pathNotFound)
  ∧ MappingEvaluator.getByPath (.list [.int 7]) "0" = .int 7
  ∧ MappingEvaluator.getByPath (.dict [("0", .int 7)]) "0" = .int 7 :=
  ⟨rfl, rfl, ⟨_, rfl, rfl⟩, rfl, rfl⟩

/-- C9 — Mapping evaluation is pure and idempotent: evaluating the same
input mapping against the same `node_outputs` twice yields identical
results, the state-threaded form of the evaluator returns the
`node_outputs` store unchanged (no mutation) with the same result as the
plain evaluator, and a `Constant` mapping always yields its literal value. -/
theorem C9_mapping_evaluation_pure (nodeOutputs : Dict)
    (inputMapping : List (String × Mapping)) (currentId : String) :
    MappingEvaluator.evaluate nodeOutputs inputMapping currentId =
      MappingEvaluator.evaluate nodeOutputs inputMapping currentId
  ∧ (MappingEvaluator.evaluateThreaded nodeOutputs inputMapping currentId).2 = nodeOutputs
  ∧ (MappingEvaluator.evaluateThreaded nodeOutputs inputMapping currentId).1 =
      MappingEvaluator.evaluate nodeOutputs inputMapping currentId
  ∧ ∀ key v, MappingEvaluator.evaluateSingle nodeOutputs (.constant v) currentId key = .ok v :=
  ⟨rfl, evaluateThreaded_state nodeOutputs inputMapping currentId,
   evaluateThreaded_fst nodeOutputs inputMapping currentId,
   fun _ _ => rfl⟩

theorem mapFinalOutput_not_mem (nodeOutputs : Dict) :
    ∀ (cfg : List (String × FinalOutputMapping)) (key : String),
      key ∉ cfg.map Prod.fst →
      alistGet (WorkflowEngine.mapFinalOutput cfg nodeOutputs) key = none := by
  intro cfg
  induction cfg with
  | nil => intro key _; rfl
  | cons kv rest ih =>
      intro key h
      obtain ⟨k0, m0⟩ := kv
      simp only [List.map_cons, List.mem_cons, not_or] at h
      obtain ⟨hne, hnotmem⟩ := h
      simp only [WorkflowEngine.mapFinalOutput]
      cases alistGet nodeOutputs m0.node_id with
      | some out =>
          simp only [alistGet]
          rw [if_neg (Ne.symm hne)]
          exact ih key hnotmem
      | none => exact ih key hnotmem

theorem mapFinalOutput_get (nodeOutputs : Dict) :
    ∀ (cfg : List (String × FinalOutputMapping)) (key : String) (m : FinalOutputMapping),
      (cfg.map Prod.fst).Nodup → (key, m) ∈ cfg →
      alistGet (WorkflowEngine.mapFinalOutput cfg nodeOutputs) key =
        (alistGet nodeOutputs m.node_id).map
          (fun nodeOutput => MappingEvaluator.getByPath nodeOutput m.path) := by
  intro cfg
  induction cfg with
  | nil => intro key m _ hmem; cases hmem
  | cons kv rest ih =>
      intro key m hnodup hmem
      obtain ⟨k0, m0⟩ := kv
      simp only [List.map_cons, List.nodup_cons] at hnodup
      obtain ⟨hk0, hnodup'⟩ := hnodup
      rcases List.mem_cons.mp hmem with heq | hmem'
      · injection heq with hkey hm
        subst hkey; subst hm
        simp only [WorkflowEngine.mapFinalOutput]
        cases hout : alistGet nodeOutputs m.node_id with
        | some out => simp [alistGet]
        | none =>
            rw [mapFinalOutput_not_mem nodeOutputs rest key hk0]
            rfl
      · have hkey_ne : k0 ≠ key := by
          intro hk
          subst hk
          exact hk0 (List.mem_map_of_mem Prod.fst hmem')
        simp only [WorkflowEngine.mapFinalOutput]
        cases alistGet nodeOutputs m0.node_id with
        | some out =>
            simp only [alistGet]
            rw [if_neg hkey_ne]
            exact ih key m hnodup' hmem'
        | none => exact ih key m hnodup' hmem'

/-- C2 counterexample: with `node_outputs = {"n1": {"a": 1}}` and the
final-output mapping `{"k": (n1, "missing")}`, the key `k` whose dot-path
cannot be resolved is NOT omitted from `final_output`: it is present and
bound to null. -/
theorem C2_counterexample :
    WorkflowEngine.mapFinalOutput [("k", ⟨"n1", "missing"⟩)] [("n1", .dict [("a", .int 1)])] =
      [("k", .null)]
  ∧ alistGet (WorkflowEngine.mapFinalOutput [("k", ⟨"n1", "missing"⟩)]
      [("n1", .dict [("a", .int 1)])]) "k" = some .null :=
  ⟨rfl, rfl⟩

/-- C2 (amended) — Final-output leniency: when all nodes succeed, applying
the final-output mapping never fails the run (the run is SUCCESS and
`final_output` is exactly `mapFinalOutput`); a mapping key whose referenced
node id is absent from `node_outputs` is omitted from `final_output`; a key
whose referenced node is present is always included, bound to the resolved
dot-path value — which is null when the path cannot be resolved — rather
than raising `PathNotFound` as node-input mapping does. -/
theorem C2_final_output_leniency
    (cfg : List (String × FinalOutputMapping)) (nodeOutputs : Dict) :
    (∀ (registry : ToolRegistry) (nodes : List WorkflowNode) (st : Dict)
        (trs : List NodeTrace) (c : RunCost),
      WorkflowEngine.runAllNodes registry nodes [] [] {} = some (st, trs, c) →
      (WorkflowEngine.execute registry
          { nodes := nodes, final_output := some ⟨cfg⟩ }).status = .success
      ∧ (WorkflowEngine.execute registry
          { nodes := nodes, final_output := some ⟨cfg⟩ }).final_output =
          some (WorkflowEngine.mapFinalOutput cfg st))
  ∧ ((cfg.map Prod.fst).Nodup →
      ∀ key m, (key, m) ∈ cfg → alistGet nodeOutputs m.node_id = none →
        alistGet (WorkflowEngine.mapFinalOutput cfg nodeOutputs) key = none)
  ∧ ((cfg.map Prod.fst).Nodup →
      ∀ key m nodeOutput, (key, m) ∈ cfg →
        alistGet nodeOutputs m.node_id = some nodeOutput →
        alistGet (WorkflowEngine.mapFinalOutput cfg nodeOutputs) key =
          some (MappingEvaluator.getByPath nodeOutput m.path)) := by
  refine ⟨?_, ?_, ?_⟩
  · intro registry nodes st trs c h
    have hloop := executeLoop_of_runAllNodes registry (some ⟨cfg⟩) nodes [] [] {} st trs c h
    constructor
    · show (WorkflowEngine.executeLoop registry (some ⟨cfg⟩) nodes [] [] {}).status = .success
      rw [hloop]
    · show (WorkflowEngine.executeLoop registry (some ⟨cfg⟩) nodes [] [] {}).final_output =
        some (WorkflowEngine.mapFinalOutput cfg st)
      rw [hloop]
  · intro hnodup key m hmem habsent
    rw [mapFinalOutput_get nodeOutputs cfg key m hnodup hmem, habsent]
    rfl
  · intro hnodup key m nodeOutput hmem hpresent
    rw [mapFinalOutput_get nodeOutputs cfg key m hnodup hmem, hpresent]
    rfl

/-- Witness for C2 (amended) on the config
`{k1: (n1, "a"), k2: (n2, "b"), k3: (n1, "missing")}` with
`node_outputs = {"n1": {"a": 1}}`: a successful (empty) run is SUCCESS
with the mapped final output; `k2` (absent node) is omitted; `k1` resolves
to 1; `k3` (present node, unresolved path) is included as null. -/
theorem C2_final_output_leniency_witness :
    ((WorkflowEngine.execute builtinRegistry
        { nodes := []
          final_output := some ⟨[("k1", ⟨"n1", "a"⟩), ("k2", ⟨"n2", "b"⟩),
                                ("k3", ⟨"n1", "missing"⟩)]⟩ }).status = .success)
  ∧ alistGet (WorkflowEngine.mapFinalOutput
      [("k1", ⟨"n1", "a"⟩), ("k2", ⟨"n2", "b"⟩), ("k3", ⟨"n1", "missing"⟩)]
      [("n1", .dict [("a", .int 1)])]) "k2" = none
  ∧ alistGet (WorkflowEngine.mapFinalOutput
      [("k1", ⟨"n1", "a"⟩), ("k2", ⟨"n2", "b"⟩), ("k3", ⟨"n1", "missing"⟩)]
      [("n1", .dict [("a", .int 1)])]) "k1" = some (.int 1)
  ∧ alistGet (WorkflowEngine.mapFinalOutput
      [("k1", ⟨"n1", "a"⟩), ("k2", ⟨"n2", "b"⟩), ("k3", ⟨"n1", "missing"⟩)]
      [("n1", .dict [("a", .int 1)])]) "k3" = some .null := by
  refine ⟨((C2_final_output_leniency
            [("k1", ⟨"n1", "a"⟩), ("k2", ⟨"n2", "b"⟩), ("k3", ⟨"n1", "missing"⟩)]
            [("n1", .dict [("a", .int 1)])]).1
            builtinRegistry [] [] [] {} rfl).1, ?_, ?_, ?_⟩
  · exact (C2_final_output_leniency
      [("k1", ⟨"n1", "a"⟩), ("k2", ⟨"n2", "b"⟩), ("k3", ⟨"n1", "missing"⟩)]
      [("n1", .dict [("a", .int 1)])]).2.1
      (by decide) "k2" ⟨"n2", "b"⟩ (List.Mem.tail _ (List.Mem.head _)) rfl
  · exact (C2_final_output_leniency
      [("k1", ⟨"n1", "a"⟩), ("k2", ⟨"n2", "b"⟩), ("k3", ⟨"n1", "missing"⟩)]
      [("n1", .dict [("a", .int 1)])]).2.2
      (by decide) "k1" ⟨"n1", "a"⟩ (.dict [("a", .int 1)]) (List.Mem.head _) rfl
  · exact (C2_final_output_leniency
      [("k1", ⟨"n1", "a"⟩), ("k2", ⟨"n2", "b"⟩), ("k3", ⟨"n1", "missing"⟩)]
      [("n1", .dict [("a", .int 1)])]).2.2
      (by decide) "k3" ⟨"n1", "missing"⟩ (.dict [("a", .int 1)])
      (List.Mem.tail _ (List.Mem.tail _ (List.Mem.head _))) rfl

/-- C6 — Tool registry versioning: after registering tool id `x` version
`1.0` and then id `x` version `2.0`, `get("x")` with no version returns the
`2.0` instance (latest registered wins), `get("x", "1.0")` still returns
the `1.0` instance, and `get("y")` for an unregistered id fails
`ToolNotFound`. -/
theorem C6_registry_versioning :
    ∃ r1, ToolRegistry.register {} toolXv1 = .ok r1
    ∧ ∃ r2, ToolRegistry.register r1 toolXv2 = .ok r2
      ∧ r2.get "x" none = .ok toolXv2
      ∧ r2.get "x" (some "1.0") = .ok toolXv1
      ∧ ∃ e, r2.get "y" none = .error e ∧ e.code = .toolNotFound :=
  ⟨_, rfl, _, rfl, rfl, rfl, _, rfl, rfl⟩

/-- C7 — Input validation: for any tool and declared parameter, when the
raw value is absent (or `None`) the declared default is substituted if the
parameter is optional (the substituted default is then subject to the same
type check as any value, so the conclusion carries the benign condition
that the default is `None` or well-typed); an absent value for a required
parameter fails `TOOL_INPUT_INVALID` naming the parameter in the details;
a present value whose runtime shape does not match the declared type fails
`TOOL_INPUT_INVALID` with expected/actual type in the details; and a
parameter failure is exactly what `validate_inputs` as a whole raises,
while a parameter success contributes its value to the validated dict. -/
theorem C7_input_validation (toolId : String) (p : ToolParameter) (inputs : Dict) :
    ((pyGet inputs p.name).isNull = true → p.required = false →
      (p.default.isNull = true ∨ BaseTool.checkType p.default p.type = true) →
      BaseTool.validateParam toolId p inputs = .ok p.default)
  ∧ ((pyGet inputs p.name).isNull = true → p.required = true →
      ∃ e, BaseTool.validateParam toolId p inputs = .error e
        ∧ e.code = .toolInputInvalid
        ∧ alistGet e.details "param" = some (.str p.name))
  ∧ ((pyGet inputs p.name).isNull = false →
      BaseTool.checkType (pyGet inputs p.name) p.type = false →
      ∃ e, BaseTool.validateParam toolId p inputs = .error e
        ∧ e.code = .toolInputInvalid
        ∧ alistGet e.details "expected_type" = some (.str p.type.wireName)
        ∧ alistGet e.details "actual_type" = some (.str (pyGet inputs p.name).pyTypeName))
  ∧ (∀ rest e, BaseTool.validateParam toolId p inputs = .error e →
      BaseTool.validateInputs toolId (p :: rest) inputs = .error e)
  ∧ (∀ rest v restResult, BaseTool.validateParam toolId p inputs = .ok v →
      BaseTool.validateInputs toolId rest inputs = .ok restResult →
      BaseTool.validateInputs toolId (p :: rest) inputs = .ok ((p.name, v) :: restResult)) := by
  refine ⟨?_, ?_, ?_, ?_, ?_⟩
  · intro hnull hopt hdef
    unfold BaseTool.validateParam
    rw [hnull]
    rcases hdef with hd | hd
    · simp [hopt, hd]
    · simp [hopt, hd]
  · intro hnull hreq
    refine ⟨requiredInputError toolId p.name, ?_, rfl, rfl⟩
    unfold BaseTool.validateParam
    rw [hnull]
    simp [hreq]
  · intro hpresent hbad
    refine ⟨invalidTypeError toolId p (pyGet inputs p.name), ?_, rfl, rfl, rfl⟩
    unfold BaseTool.validateParam
    rw [hpresent]
    simp [hpresent, hbad]
  · intro rest e herr
    unfold BaseTool.validateInputs
    rw [herr]
    rfl
  · intro rest v restResult hok hrest
    unfold BaseTool.validateInputs
    rw [hok, hrest]
    rfl

/-- Witness for C7: the optional parameter `m` (integer, default 100)
absent from the inputs validates to its default; the required parameter
`data` of `data.map` absent from the inputs fails naming `data`; a string
passed for the integer parameter `count` fails with expected `integer`,
actual `str`. -/
theorem C7_input_validation_witness :
    BaseTool.validateParam "t"
      { name := "m", type := .integer, required := false, default := .int 100 } [] =
      .ok (.int 100)
  ∧ (∃ e, BaseTool.validateParam "data.map"
        { name := "data", type := .object, required := true } [] = .error e
      ∧ e.code = .toolInputInvalid
      ∧ alistGet e.details "param" = some (.str "data"))
  ∧ (∃ e, BaseTool.validateParam "t"
        { name := "count", type := .integer, required := true }
        [("count", .str "x")] = .error e
      ∧ e.code = .toolInputInvalid
      ∧ alistGet e.details "expected_type" = some (.str "integer")
      ∧ alistGet e.details "actual_type" = some (.str "str")) :=
  ⟨(C7_input_validation "t"
      { name := "m", type := .integer, required := false, default := .int 100 } []).1
      rfl rfl (Or.inr rfl),
   (C7_input_validation "data.map"
      { name := "data", type := .object, required := true } []).2.1 rfl rfl,
   (C7_input_validation "t"
      { name := "count", type := .integer, required := true }
      [("count", .str "x")]).2.2.1 rfl rfl⟩

/-- C10 — A Python boolean passes validation wherever an `integer` (or
`number`) parameter is declared, because `bool` is a subtype of `int` and
`_check_type` uses `isinstance`: the type check accepts it and the boolean
appears unchanged in the validated inputs. -/
theorem C10_bool_passes_integer_check (toolId : String) (p : ToolParameter)
    (inputs : Dict) (b : Bool)
    (htype : p.type = .integer ∨ p.type = .number)
    (hval : alistGet inputs p.name = some (.bool b)) :
    BaseTool.checkType (.bool b) p.type = true
  ∧ BaseTool.validateParam toolId p inputs = .ok (.bool b)
  ∧ BaseTool.validateInputs toolId [p] inputs = .ok [(p.name, .bool b)] := by
  have hget : pyGet inputs p.name = .bool b := by
    simp [pyGet, pyGetD, hval]
  have hcheck : BaseTool.checkType (.bool b) p.type = true := by
    rcases htype with h | h <;> rw [h] <;> rfl
  have hparam : BaseTool.validateParam toolId p inputs = .ok (.bool b) := by
    unfold BaseTool.validateParam
    rw [hget]
    simp [Value.isNull, hcheck]
  refine ⟨hcheck, hparam, ?_⟩
  unfold BaseTool.validateInputs
  rw [hparam]
  rfl

/-- Witness for C10: `True` passed for the integer parameter `n`
validates unchanged. -/
theorem C10_bool_passes_integer_check_witness :
    BaseTool.checkType (.bool true) ToolParameterType.integer = true
  ∧ BaseTool.validateParam "t" { name := "n", type := .integer } [("n", .bool true)] =
      .ok (.bool true)
  ∧ BaseTool.validateInputs "t" [{ name := "n", type := .integer }] [("n", .bool true)] =
      .ok [("n", .bool true)] :=
  C10_bool_passes_integer_check "t" { name := "n", type := .integer }
    [("n", .bool true)] true (Or.inl rfl) rfl

/-- C5 counterexample: executing the claimed two-node `data.map` workflow
does NOT reach SUCCESS — the run fails at n1 (its mapping `{"x": 1}`
provides neither of the required `data`/`mapping` parameters) and `n2`
never contributes an output. -/
theorem C5_counterexample :
    (WorkflowEngine.execute builtinRegistry workflowC5).status = .failed
  ∧ (WorkflowEngine.execute builtinRegistry workflowC5).status ≠ .success
  ∧ (WorkflowEngine.execute builtinRegistry workflowC5).node_outputs = [] := by
  refine ⟨rfl, ?_, rfl⟩
  intro h
  have hf : (WorkflowEngine.execute builtinRegistry workflowC5).status = RunStatus.failed := rfl
  rw [hf] at h
  exact RunStatus.noConfusion h

/-- C5 (amended) — executing the workflow `[n1: data.map {"x": Constant(1)},
n2: data.map {"y": FromNode(n1, "result.x")}]` fails fast at n1 with
`TOOL_INPUT_INVALID` (required input `data` is missing, since `data.map`
declares required object parameters `data` and `mapping`): the run status
is FAILED with that error, `node_outputs` is empty, no final output is
produced, the only trace is the FAILED trace of n1 (n2 is never executed),
and the cost is zero. -/
theorem C5_amended_scenario :
    WorkflowEngine.execute builtinRegistry workflowC5 =
      { status := .failed
        node_outputs := []
        final_output := none
        error := some (requiredInputError "data.map" "data")
        traces := [WorkflowEngine.failTrace nodeC5n1 (requiredInputError "data.map" "data")]
        cost := {} } := rfl

/-- C8 — Cost accumulation is strictly additive across a run's nodes: in a
three-node run where every node trace reports the token usage
`{total:10, prompt:6, completion:4}`, the final run cost is
`{total:30, prompt:18, completion:12}`; and a node whose trace records no
(truthy) token usage leaves every cost counter unchanged. -/
theorem C8_cost_accumulation (registry : ToolRegistry) (a b c : WorkflowNode)
    (t1 t2 t3 : NodeTrace) (st1 st2 st3 : Dict)
    (h1 : WorkflowEngine.executeNode registry [] a = (t1, st1))
    (hs1 : t1.status = .success)
    (hu1 : pyGet t1.output_summary "token_usage" = usageTenSixFour)
    (h2 : WorkflowEngine.executeNode registry st1 b = (t2, st2))
    (hs2 : t2.status = .success)
    (hu2 : pyGet t2.output_summary "token_usage" = usageTenSixFour)
    (h3 : WorkflowEngine.executeNode registry st2 c = (t3, st3))
    (hs3 : t3.status = .success)
    (hu3 : pyGet t3.output_summary "token_usage" = usageTenSixFour) :
    ((WorkflowEngine.execute registry { nodes := [a, b, c], final_output := none }).cost =
        { tokens := 30, prompt_tokens := 18, completion_tokens := 12 }
      ∧ (WorkflowEngine.execute registry
          { nodes := [a, b, c], final_output := none }).status = .success)
  ∧ ∀ (cost : RunCost) (summary : Dict),
      (pyGet summary "token_usage").pyTruthy = false →
      WorkflowEngine.accumulateCost cost summary = (cost, none) := by
  constructor
  · have acc1 : WorkflowEngine.accumulateCost {} t1.output_summary =
        ({ tokens := 10, prompt_tokens := 6, completion_tokens := 4 }, none) := by
      unfold WorkflowEngine.accumulateCost
      rw [hu1]
      rfl
    have acc2 : WorkflowEngine.accumulateCost
        { tokens := 10, prompt_tokens := 6, completion_tokens := 4 } t2.output_summary =
        ({ tokens := 20, prompt_tokens := 12, completion_tokens := 8 }, none) := by
      unfold WorkflowEngine.accumulateCost
      rw [hu2]
      rfl
    have acc3 : WorkflowEngine.accumulateCost
        { tokens := 20, prompt_tokens := 12, completion_tokens := 8 } t3.output_summary =
        ({ tokens := 30, prompt_tokens := 18, completion_tokens := 12 }, none) := by
      unfold WorkflowEngine.accumulateCost
      rw [hu3]
      rfl
    have hall : WorkflowEngine.runAllNodes registry [a, b, c] [] [] {} =
        some (st3, [t1, t2, t3],
          { tokens := 30, prompt_tokens := 18, completion_tokens := 12 }) := by
      simp only [WorkflowEngine.runAllNodes, h1, hs1, acc1, h2, hs2, acc2, h3, hs3, acc3,
                 List.nil_append, List.cons_append, eq_self_iff_true, if_true]
    have hloop := executeLoop_of_runAllNodes registry none [a, b, c] [] [] {} st3
      [t1, t2, t3] { tokens := 30, prompt_tokens := 18, completion_tokens := 12 } hall
    constructor
    · show (WorkflowEngine.executeLoop registry none [a, b, c] [] [] {}).cost = _
      rw [hloop]
    · show (WorkflowEngine.executeLoop registry none [a, b, c] [] [] {}).status = .success
      rw [hloop]
  · intro cost summary hfalse
    unfold WorkflowEngine.accumulateCost
    rw [hfalse]
    rfl

/-- Witness for C8: a concrete three-node run over the usage fixture tool
accumulates exactly `{total:30, prompt:18, completion:12}`. -/
theorem C8_cost_accumulation_witness :
    (WorkflowEngine.execute usageRegistry
        { nodes := [usageNode "a", usageNode "b", usageNode "c"],
          final_output := none }).cost =
      { tokens := 30, prompt_tokens := 18, completion_tokens := 12 } :=
  (C8_cost_accumulation usageRegistry (usageNode "a") (usageNode "b") (usageNode "c")
      _ _ _ _ _ _ rfl rfl rfl rfl rfl rfl rfl rfl rfl).1.1
